import Mathlib

/-!
Shallow embedding of the Market Bar POS simulator core
(src/utils.ts and src/server.ts) and proofs of the spec's claims.

Monetary values are JavaScript numbers in the source; they are embedded
as exact rationals (ℚ), with JavaScript `Math.round` embedded as
`⌊x + 1/2⌋` (round half toward positive infinity), which is its
documented behaviour.
-/

namespace POS

/-- JavaScript `Math.round`: round half toward +∞, i.e. `⌊x + 1/2⌋`. -/
def jsRound (x : ℚ) : ℤ := ⌊x + 1/2⌋

/-- `Math.round(x * 100) / 100` — rounding a monetary amount to 2 decimals,
as done in `calculateOrderTotals` (src/utils.ts). -/
def round2 (x : ℚ) : ℚ := (jsRound (x * 100) : ℚ) / 100

/-- `CatalogItem` from src/types.ts. Timestamps are opaque naturals. -/
structure CatalogItem where
  id : String
  name : String
  category : String
  price : ℚ
  minPrice : ℚ
  maxPrice : ℚ
  taxRate : ℚ
  isActive : Bool
  createdAt : Nat
  updatedAt : Nat
  deriving Repr, DecidableEq

/-- The information content of the human-readable message built by
`validatePrice` (src/utils.ts lines 104-116): which bound was violated,
the offered price and the bound's value.  The source renders these as the
strings `Price $p is below minimum $m` / `Price $p is above maximum $m`. -/
inductive GuardrailMsg where
  | belowMin (price minPrice : ℚ)
  | aboveMax (price maxPrice : ℚ)
  deriving Repr, DecidableEq

/-- Result record `{ valid: boolean; message?: string }` of `validatePrice`. -/
structure ValidationResult where
  valid : Bool
  message : Option GuardrailMsg
  deriving Repr, DecidableEq

/-- `validatePrice` from src/utils.ts (lines 95-119). -/
def validatePrice (item : CatalogItem) (newPrice : ℚ)
    (overrideGuardrails : Bool) : ValidationResult :=
  if overrideGuardrails then
    { valid := true, message := none }
  else if newPrice < item.minPrice then
    { valid := false, message := some (.belowMin newPrice item.minPrice) }
  else if newPrice > item.maxPrice then
    { valid := false, message := some (.aboveMax newPrice item.maxPrice) }
  else
    { valid := true, message := none }

/-- A requested order line `{ itemId, qty }` (src/types.ts `CreateOrderRequest`). -/
structure ReqLine where
  itemId : String
  qty : ℚ
  deriving Repr, DecidableEq

/-- An order line as produced by `calculateOrderTotals` and stored on orders
(src/types.ts `OrderItem`). -/
structure OrderItem where
  itemId : String
  name : String
  price : ℚ
  quantity : ℚ
  subtotal : ℚ
  deriving Repr, DecidableEq

/-- The record returned by `calculateOrderTotals`. -/
structure OrderTotals where
  items : List OrderItem
  subtotal : ℚ
  tax : ℚ
  total : ℚ
  deriving Repr, DecidableEq

/-- The catalog `Map<string, CatalogItem>` as an association list. -/
abbrev Catalog := List (String × CatalogItem)

/-- `catalog.get(itemId)`. -/
def catalogGet (c : Catalog) (k : String) : Option CatalogItem :=
  (c.find? (fun p => p.1 = k)).map (fun p => p.2)

/-- The `for` loop of `calculateOrderTotals` (src/utils.ts lines 137-156):
accumulates the unrounded subtotal and tax and the per-line records, failing
on the first line whose item is absent. -/
def totalsLoop (cat : Catalog) :
    List ReqLine → ℚ → ℚ → List OrderItem →
    Except String (List OrderItem × ℚ × ℚ)
  | [], sub, tax, acc => .ok (acc, sub, tax)
  | l :: ls, sub, tax, acc =>
    match catalogGet cat l.itemId with
    | none => .error ("Item " ++ l.itemId ++ " not found")
    | some ci =>
      let itemSubtotal := ci.price * l.qty
      let itemTax := itemSubtotal * ci.taxRate
      totalsLoop cat ls (sub + itemSubtotal) (tax + itemTax)
        (acc ++ [{ itemId := l.itemId, name := ci.name, price := ci.price,
                   quantity := l.qty, subtotal := itemSubtotal }])

/-- `calculateOrderTotals` from src/utils.ts (lines 124-164). -/
def calculateOrderTotals (items : List ReqLine) (catalog : Catalog) :
    Except String OrderTotals :=
  (totalsLoop catalog items 0 0 []).map fun r =>
    { items := r.1
      subtotal := round2 r.2.1
      tax := round2 r.2.2
      total := round2 (r.2.1 + r.2.2) }

/-- Unrounded sum `Σ price*qty` over lines, with each line's unit price read
from the catalog (defined for lines whose item is present; absent items
contribute via a default that the presence hypotheses rule out). -/
def rawSubtotalSum (items : List ReqLine) (cat : Catalog) : ℚ :=
  (items.map (fun l => ((catalogGet cat l.itemId).map
    (fun ci => ci.price * l.qty)).getD 0)).sum

/-- Unrounded sum `Σ price*qty*taxRate` over lines. -/
def rawTaxSum (items : List ReqLine) (cat : Catalog) : ℚ :=
  (items.map (fun l => ((catalogGet cat l.itemId).map
    (fun ci => ci.price * l.qty * ci.taxRate)).getD 0)).sum

/-! ### Signature codec (src/utils.ts lines 18-28)

`crypto.createHmac('sha256', secret)` is Node standard library, not
repository code.  Modelled from the spec: a secret-keyed deterministic
digest over the payload, rendered as a fixed-length (64-character) hex
string.  Nothing below depends on more than determinism and the fixed
output length, which are the properties the spec states. -/

/-- Render a natural below `16^64` as exactly 64 hex characters
(zero-padded). -/
def hexRender64 (h : Nat) : List Char :=
  let ds := Nat.toDigits 16 (h % 16 ^ 64)
  List.replicate (64 - ds.length) '0' ++ ds

/-- Modelled from the spec: `crypto.createHmac('sha256', secret)
.update(payload).digest('hex')` — a keyed deterministic hash with a
fixed-length hex digest (HMAC-SHA256 itself is Node library code, absent
from the repository). -/
def hmacSha256Hex (payload secret : String) : String :=
  ⟨hexRender64 ((payload.data ++ secret.data).foldl
    (fun a c => (a * 131 + c.toNat + 1) % 16 ^ 64) 7)⟩

/-- `generateHmacSignature` from src/utils.ts (lines 18-20). -/
def generateHmacSignature (payload secret : String) : String :=
  hmacSha256Hex payload secret

/-- `Buffer.from(s)` — the byte view of a string (modelled at character
granularity; digests are ASCII hex so this is byte-faithful for them). -/
def bufferFrom (s : String) : List Char := s.data

/-- `crypto.timingSafeEqual(a, b)` (Node library): compares two buffers in
constant time, but THROWS a `RangeError` when the buffer lengths differ —
modelled from its documented behaviour; the throw is an `Except.error`. -/
def timingSafeEqual (a b : List Char) : Except String Bool :=
  if a.length = b.length then .ok (a = b)
  else .error "Input buffers must have the same byte length"

/-- `verifyHmacSignature` from src/utils.ts (lines 25-28): recomputes the
expected digest and calls `timingSafeEqual` on the raw buffers, with no
length guard.  A thrown `RangeError` surfaces as `Except.error`. -/
def verifyHmacSignature (payload signature secret : String) :
    Except String Bool :=
  let expectedSignature := generateHmacSignature payload secret
  timingSafeEqual (bufferFrom signature) (bufferFrom expectedSignature)

/-! ### Webhook delivery agent (src/utils.ts lines 33-83) -/

/-- Outcome of one `fetch` attempt: a 2xx response (`response.ok`), a
non-2xx response, or a transport-level error (rejected promise). -/
inductive AttemptOutcome where
  | ok
  | httpFail
  | transportErr
  deriving Repr, DecidableEq

/-- Observable trace of one `sendWebhook` run: how many `fetch` attempts
were made, the sleeps performed between consecutive attempts (ms), and
whether the promise resolved (`.ok ()`) or rejected (`.error ()`). -/
structure WebhookRun where
  attempts : Nat
  delays : List Nat
  result : Except Unit Unit
  deriving Repr

/-- The `while (retryCount <= maxRetries)` loop of `sendWebhook`
(src/utils.ts lines 45-82), with the environment's response to the n-th
attempt given by `outcomes n`.  `fuel` bounds the remaining iterations;
`sendWebhook` below supplies `maxRetries + 1`, the exact trip count.
A non-2xx response on the last allowed attempt throws inside `try`, is
caught, and rethrown by the `catch` arm — both failure kinds end in the
promise rejecting. -/
def webhookLoop (outcomes : Nat → AttemptOutcome) (maxRetries : Nat) :
    Nat → Nat → Nat → WebhookRun
  | _, _, 0 => { attempts := 0, delays := [], result := .ok () }
  | retryCount, delay, fuel + 1 =>
    match outcomes retryCount with
    | .ok => { attempts := 1, delays := [], result := .ok () }
    | .httpFail =>
      if retryCount < maxRetries then
        let r := webhookLoop outcomes maxRetries (retryCount + 1) (delay * 2) fuel
        { attempts := r.attempts + 1, delays := delay :: r.delays,
          result := r.result }
      else
        { attempts := 1, delays := [], result := .error () }
    | .transportErr =>
      if retryCount < maxRetries then
        let r := webhookLoop outcomes maxRetries (retryCount + 1) (delay * 2) fuel
        { attempts := r.attempts + 1, delays := delay :: r.delays,
          result := r.result }
      else
        { attempts := 1, delays := [], result := .error () }

/-- `sendWebhook` from src/utils.ts (lines 33-83): `retryCount` starts at 0,
`delay` at 1000ms, and the loop runs while `retryCount <= maxRetries`. -/
def sendWebhook (outcomes : Nat → AttemptOutcome)
    (maxRetries : Nat := 3) : WebhookRun :=
  webhookLoop outcomes maxRetries 0 1000 (maxRetries + 1)

/-! ### Server state and route handlers (src/server.ts) -/

/-- `Order` from src/types.ts; `status` is the literal string stored. -/
structure Order where
  id : String
  items : List OrderItem
  subtotal : ℚ
  tax : ℚ
  total : ℚ
  status : String
  createdAt : Nat
  deriving Repr, DecidableEq

/-- Promotion kind union `'percent_off' | 'amount_off'`. -/
inductive PromoKind where
  | percentOff
  | amountOff
  deriving Repr, DecidableEq

/-- `Promotion` from src/types.ts. -/
structure Promotion where
  id : String
  itemId : String
  kind : PromoKind
  value : ℚ
  startsAt : Option Nat
  endsAt : Option Nat
  isActive : Bool
  createdAt : Nat
  deriving Repr, DecidableEq

/-- The in-memory stores and `menuVersion` counter
(src/server.ts lines 42-47). -/
structure ServerState where
  catalog : Catalog
  orders : List (String × Order)
  promotions : List (String × Promotion)
  menuVersion : Nat

/-- `catalog.set(k, v)`: update in place when the key exists (the source
mutates the looked-up object), append otherwise. -/
def catalogSet (c : Catalog) (k : String) (v : CatalogItem) : Catalog :=
  if (c.find? (fun p => p.1 = k)).isSome then
    c.map (fun p => if p.1 = k then (k, v) else p)
  else c ++ [(k, v)]

/-- `catalog.delete(k)`. -/
def catalogDelete (c : Catalog) (k : String) : Catalog :=
  c.filter (fun p => ¬p.1 = k)

/-- One line of the outbound webhook payload (src/types.ts
`WebhookPayload.items`). -/
structure WebhookItem where
  itemId : String
  name : String
  quantity : ℚ
  price : ℚ
  deriving Repr, DecidableEq

/-- `WebhookPayload` from src/types.ts. -/
structure WebhookPayload where
  orderId : String
  venueId : String
  timestamp : Nat
  items : List WebhookItem
  subtotal : ℚ
  tax : ℚ
  total : ℚ
  deriving Repr, DecidableEq

/-- One WebSocket broadcast, i.e. one `broadcast({event, data, ts})` call,
with the `data` shape of each call site preserved. -/
inductive WsEvent where
  | orderCreated (order : Order) (ts : Nat)
  | priceUpdated (itemId name : String) (oldPrice newPrice : ℚ)
      (menuVersion : Option Nat) (ts : Nat)
  | menuPublishedItem (menuVersion : Nat) (item : CatalogItem) (ts : Nat)
  | menuPublishedDeleted (menuVersion : Nat) (deletedItemId : String) (ts : Nat)
  | menuPublished (menuVersion : Nat) (ts : Nat)
  | promotionCreated (promo : Promotion) (ts : Nat)
  deriving Repr, DecidableEq

/-- What one request handler produces: HTTP status, the state after the
handler, the broadcasts it performed, the error message of a 4xx response,
and the webhook payload it handed to `sendWebhook` (if any). -/
structure HandlerResult where
  status : Nat
  state : ServerState
  events : List WsEvent
  error : Option String
  webhook : Option WebhookPayload

/-- JS `x || dflt` applied to an optional number: `undefined` and `0` are
falsy, so both fall back to the default. -/
def jsOr (x : Option ℚ) (dflt : ℚ) : ℚ :=
  match x with
  | some v => if v = 0 then dflt else v
  | none => dflt

/-- `CreateItemRequest` from src/types.ts; optional fields are `Option`. -/
structure CreateItemRequest where
  name : String
  category : String
  price : Option ℚ
  minPrice : Option ℚ
  maxPrice : Option ℚ
  taxRate : Option ℚ
  deriving Repr, DecidableEq

/-- `POST /catalog/items` (src/server.ts lines 134-167).  `newId` stands for
`generateId()` and `now` for `new Date()`. -/
def createItemHandler (st : ServerState) (body : CreateItemRequest)
    (newId : String) (now : Nat) : HandlerResult :=
  if body.name = "" ∨ body.category = "" ∨ body.price = none ∨
      body.minPrice = none ∨ body.maxPrice = none then
    { status := 400, state := st, events := [],
      error := some "Missing required fields", webhook := none }
  else
    let item : CatalogItem :=
      { id := newId, name := body.name, category := body.category,
        price := body.price.getD 0, minPrice := body.minPrice.getD 0,
        maxPrice := body.maxPrice.getD 0,
        taxRate := jsOr body.taxRate (33/400),
        isActive := true, createdAt := now, updatedAt := now }
    let mv := st.menuVersion + 1
    { status := 201,
      state := { st with catalog := catalogSet st.catalog newId item
                         menuVersion := mv }
      events := [.menuPublishedItem mv item now],
      error := none, webhook := none }

/-- `UpdateItemRequest` from src/types.ts. -/
structure UpdateItemRequest where
  name : Option String
  category : Option String
  price : Option ℚ
  minPrice : Option ℚ
  maxPrice : Option ℚ
  taxRate : Option ℚ
  isActive : Option Bool
  deriving Repr, DecidableEq

/-- `PATCH /catalog/items/:id` (src/server.ts lines 170-200): each field
guarded by `!== undefined`. -/
def updateItemHandler (st : ServerState) (id : String)
    (body : UpdateItemRequest) (now : Nat) : HandlerResult :=
  match catalogGet st.catalog id with
  | none =>
    { status := 404, state := st, events := [],
      error := some "Item not found", webhook := none }
  | some item =>
    let item' : CatalogItem :=
      { item with
        name := body.name.getD item.name,
        category := body.category.getD item.category,
        price := body.price.getD item.price,
        minPrice := body.minPrice.getD item.minPrice,
        maxPrice := body.maxPrice.getD item.maxPrice,
        taxRate := body.taxRate.getD item.taxRate,
        isActive := body.isActive.getD item.isActive,
        updatedAt := now }
    let mv := st.menuVersion + 1
    { status := 200,
      state := { st with catalog := catalogSet st.catalog id item'
                         menuVersion := mv }
      events := [.menuPublishedItem mv item' now],
      error := none, webhook := none }

/-- `DELETE /catalog/items/:id` (src/server.ts lines 203-224). -/
def deleteItemHandler (st : ServerState) (id : String) (now : Nat) :
    HandlerResult :=
  match catalogGet st.catalog id with
  | none =>
    { status := 404, state := st, events := [],
      error := some "Item not found", webhook := none }
  | some _ =>
    let mv := st.menuVersion + 1
    { status := 200,
      state := { st with catalog := catalogDelete st.catalog id
                         menuVersion := mv }
      events := [.menuPublishedDeleted mv id now],
      error := none, webhook := none }

/-- `PriceUpdateRequest` from src/types.ts. -/
structure PriceUpdateRequest where
  price : Option ℚ
  publish : Option Bool
  overrideGuardrails : Option Bool
  deriving Repr, DecidableEq

/-- `POST /pricing/:itemId` (src/server.ts lines 227-277).  The optional
boolean flags are read by JS truthiness, so `undefined` acts as `false`. -/
def priceUpdateHandler (st : ServerState) (itemId : String)
    (body : PriceUpdateRequest) (now : Nat) : HandlerResult :=
  match body.price with
  | none =>
    { status := 400, state := st, events := [],
      error := some "Price is required", webhook := none }
  | some price =>
    match catalogGet st.catalog itemId with
    | none =>
      { status := 404, state := st, events := [],
        error := some "Item not found", webhook := none }
    | some item =>
      let validation :=
        validatePrice item price (body.overrideGuardrails.getD false)
      if validation.valid then
        let oldPrice := item.price
        let item' := { item with price := price, updatedAt := now }
        let publish := body.publish.getD false
        let mv := if publish then st.menuVersion + 1 else st.menuVersion
        { status := 200,
          state := { st with catalog := catalogSet st.catalog itemId item'
                             menuVersion := mv }
          events := [.priceUpdated itemId item.name oldPrice price
            (if publish then some mv else none) now],
          error := none, webhook := none }
      else
        { status := 400, state := st, events := [],
          error := some "Guardrail violation", webhook := none }

/-- `CreatePromotionRequest` from src/types.ts. -/
structure CreatePromotionRequest where
  itemId : String
  kind : PromoKind
  value : Option ℚ
  startsAt : Option Nat
  endsAt : Option Nat
  deriving Repr, DecidableEq

/-- `POST /promotions` (src/server.ts lines 280-316). -/
def createPromotionHandler (st : ServerState) (body : CreatePromotionRequest)
    (newId : String) (now : Nat) : HandlerResult :=
  if body.itemId = "" ∨ body.value = none then
    { status := 400, state := st, events := [],
      error := some "Missing required fields", webhook := none }
  else
    match catalogGet st.catalog body.itemId with
    | none =>
      { status := 404, state := st, events := [],
        error := some "Item not found", webhook := none }
    | some _ =>
      let promotion : Promotion :=
        { id := newId, itemId := body.itemId, kind := body.kind,
          value := body.value.getD 0, startsAt := body.startsAt,
          endsAt := body.endsAt, isActive := true, createdAt := now }
      { status := 201,
        state := { st with
          promotions := st.promotions ++ [(newId, promotion)] },
        events := [.promotionCreated promotion now],
        error := none, webhook := none }

/-- `POST /menu/publish` (src/server.ts lines 319-331). -/
def publishMenuHandler (st : ServerState) (now : Nat) : HandlerResult :=
  let mv := st.menuVersion + 1
  { status := 200, state := { st with menuVersion := mv },
    events := [.menuPublished mv now],
    error := none, webhook := none }

/-- `POST /orders` (src/server.ts lines 342-409), up to the point where the
webhook is handed off: on a missing item `calculateOrderTotals` throws, the
`catch` answers 400 and nothing has been mutated or broadcast. -/
def createOrderHandler (st : ServerState) (items : List ReqLine)
    (newId : String) (now : Nat) (webhookConfigured : Bool) : HandlerResult :=
  if items.isEmpty then
    { status := 400, state := st, events := [],
      error := some "Items array is required and must not be empty",
      webhook := none }
  else
    match calculateOrderTotals items st.catalog with
    | .error msg =>
      { status := 400, state := st, events := [],
        error := some msg, webhook := none }
    | .ok calcRes =>
      let order : Order :=
        { id := newId, items := calcRes.items, subtotal := calcRes.subtotal,
          tax := calcRes.tax, total := calcRes.total, status := "completed",
          createdAt := now }
      { status := 201,
        state := { st with orders := st.orders ++ [(newId, order)] },
        events := [.orderCreated order now],
        error := none,
        webhook := if webhookConfigured then
            some { orderId := newId, venueId := "pos-sim-venue-001",
                   timestamp := now,
                   items := order.items.map (fun i =>
                     { itemId := i.itemId, name := i.name,
                       quantity := i.quantity, price := i.price }),
                   subtotal := order.subtotal, tax := order.tax,
                   total := order.total }
          else none }

/-- The full order-creation path including the detached webhook task:
`sendWebhook(...).catch(console.error)` is fire-and-forget, so the handler
result is computed independently of the delivery outcomes and the rejected
promise is absorbed by `.catch`. -/
def createOrderWithWebhook (st : ServerState) (items : List ReqLine)
    (newId : String) (now : Nat) (webhookConfigured : Bool)
    (outcomes : Nat → AttemptOutcome) : HandlerResult × Option WebhookRun :=
  let r := createOrderHandler st items newId now webhookConfigured
  (r, r.webhook.map (fun _ => sendWebhook outcomes))

/-- One core operation, for stating whole-system invariants. -/
inductive Op where
  | createItem (body : CreateItemRequest) (newId : String) (now : Nat)
  | updateItem (id : String) (body : UpdateItemRequest) (now : Nat)
  | deleteItem (id : String) (now : Nat)
  | priceUpdate (itemId : String) (body : PriceUpdateRequest) (now : Nat)
  | createPromotion (body : CreatePromotionRequest) (newId : String) (now : Nat)
  | publishMenu (now : Nat)
  | createOrder (items : List ReqLine) (newId : String) (now : Nat)
      (webhookConfigured : Bool)

/-- Dispatch an operation to its handler. -/
def applyOp (st : ServerState) : Op → HandlerResult
  | .createItem body newId now => createItemHandler st body newId now
  | .updateItem id body now => updateItemHandler st id body now
  | .deleteItem id now => deleteItemHandler st id now
  | .priceUpdate itemId body now => priceUpdateHandler st itemId body now
  | .createPromotion body newId now => createPromotionHandler st body newId now
  | .publishMenu now => publishMenuHandler st now
  | .createOrder items newId now cfg =>
      createOrderHandler st items newId now cfg

/-! ### Helper lemmas about the catalog map -/

theorem find_map_update_of_found (k : String) (v : CatalogItem) :
    ∀ c : Catalog, (c.find? (fun p => p.1 = k)).isSome = true →
      ((c.map (fun p => if p.1 = k then (k, v) else p)).find?
        (fun p => p.1 = k)) = some (k, v) := by
  intro c
  induction c with
  | nil => intro h; simp [List.find?] at h
  | cons hd tl ih =>
    intro h
    by_cases hk : hd.1 = k
    · simp [List.find?, hk]
    · have hd_ne : decide (hd.1 = k) = false := by simp [hk]
      rw [List.map_cons, if_neg hk]
      simp only [List.find?, hd_ne] at h ⊢
      exact ih h

theorem find_append_of_not_found (k : String) (v : CatalogItem) :
    ∀ c : Catalog, (c.find? (fun p => p.1 = k)).isSome = false →
      ((c ++ [(k, v)]).find? (fun p => p.1 = k)) = some (k, v) := by
  intro c
  induction c with
  | nil => intro _; simp [List.find?]
  | cons hd tl ih =>
    intro h
    by_cases hk : hd.1 = k
    · simp [List.find?, hk] at h
    · have hd_ne : decide (hd.1 = k) = false := by simp [hk]
      simp only [List.cons_append, List.find?, hd_ne] at h ⊢
      exact ih h

theorem catalogGet_catalogSet_self (c : Catalog) (k : String) (v : CatalogItem) :
    catalogGet (catalogSet c k v) k = some v := by
  unfold catalogGet catalogSet
  by_cases h : (c.find? (fun p => p.1 = k)).isSome = true
  · rw [if_pos h, find_map_update_of_found k v c h]
    rfl
  · rw [if_neg h, find_append_of_not_found k v c
      (by simp only [Bool.not_eq_true] at h; exact h)]
    rfl

theorem find_map_update_other (k k' : String) (v : CatalogItem) (hk : ¬k' = k) :
    ∀ c : Catalog,
      ((c.map (fun p => if p.1 = k then (k, v) else p)).find?
        (fun p => p.1 = k')) = c.find? (fun p => p.1 = k') := by
  intro c
  induction c with
  | nil => simp
  | cons hd tl ih =>
    by_cases h1 : hd.1 = k
    · have e1 : decide ((k, v).1 = k') = false := by
        simp only [decide_eq_false_iff_not]
        exact fun h => hk h.symm
      have e2 : decide (hd.1 = k') = false := by
        simp only [decide_eq_false_iff_not, h1]
        exact fun h => hk h.symm
      simp only [List.map_cons, if_pos h1, List.find?, e1, e2]
      exact ih
    · simp only [List.map_cons, if_neg h1, List.find?]
      cases hfd : decide (hd.1 = k') with
      | true => rfl
      | false => exact ih

theorem catalogGet_catalogSet_other (c : Catalog) (k k' : String)
    (v : CatalogItem) (hk : ¬k' = k) :
    catalogGet (catalogSet c k v) k' = catalogGet c k' := by
  unfold catalogGet catalogSet
  by_cases h : (c.find? (fun p => p.1 = k)).isSome = true
  · rw [if_pos h, find_map_update_other k k' v hk c]
  · rw [if_neg h]
    have hkk' : decide (k = k') = false := by
      simp only [decide_eq_false_iff_not]
      exact fun h2 => hk h2.symm
    clear h
    congr 1
    induction c with
    | nil => simp [List.find?, hkk']
    | cons hd tl ih =>
      simp only [List.cons_append, List.find?]
      cases hfd : decide (hd.1 = k') with
      | true => rfl
      | false => exact ih

/-- `jsOr` never produces 0 when the default is nonzero. -/
theorem jsOr_ne_zero (x : Option ℚ) (dflt : ℚ) (h : ¬dflt = 0) :
    ¬jsOr x dflt = 0 := by
  cases x with
  | none => simp only [jsOr]; exact h
  | some v =>
    by_cases hv : v = 0
    · simp only [jsOr, if_pos hv]
      exact h
    · simp only [jsOr, if_neg hv]
      exact hv

/-! ### Claims -/

/-- C6: `validatePrice(item, p, false)` is valid iff
`item.minPrice ≤ p ≤ item.maxPrice` (bounds inclusive);
`validatePrice(item, p, true)` is always valid; when invalid, the message
identifies the violated bound together with its value. -/
theorem validatePrice_spec (item : CatalogItem) (p : ℚ) :
    ((validatePrice item p false).valid = true ↔
      item.minPrice ≤ p ∧ p ≤ item.maxPrice) ∧
    (validatePrice item p true).valid = true ∧
    (p < item.minPrice →
      validatePrice item p false =
        { valid := false, message := some (.belowMin p item.minPrice) }) ∧
    (item.minPrice ≤ p → item.maxPrice < p →
      validatePrice item p false =
        { valid := false, message := some (.aboveMax p item.maxPrice) }) := by
  refine ⟨?_, rfl, ?_, ?_⟩
  · unfold validatePrice
    rw [if_neg (show ¬(false = true) by simp)]
    by_cases h1 : p < item.minPrice
    · rw [if_pos h1]
      show false = true ↔ _
      simp only [Bool.false_eq_true, false_iff]
      rintro ⟨ha, hb⟩
      linarith
    · rw [if_neg h1]
      by_cases h2 : p > item.maxPrice
      · rw [if_pos h2]
        show false = true ↔ _
        simp only [Bool.false_eq_true, false_iff]
        rintro ⟨ha, hb⟩
        linarith
      · rw [if_neg h2]
        exact ⟨fun _ => ⟨not_lt.mp h1, not_lt.mp h2⟩, fun _ => rfl⟩
  · intro h
    unfold validatePrice
    rw [if_neg (by simp), if_pos h]
  · intro h1 h2
    unfold validatePrice
    rw [if_neg (by simp), if_neg (not_lt.mpr h1), if_pos h2]

/-- Concrete catalog item used by witnesses: the seeded `IPA Pint`
(src/utils.ts lines 172-183), price 7, bounds [5, 12], tax 8.25%. -/
def ipaPint : CatalogItem :=
  { id := "item-ipa", name := "IPA Pint", category := "Beer", price := 7,
    minPrice := 5, maxPrice := 12, taxRate := 33/400, isActive := true,
    createdAt := 0, updatedAt := 0 }

/-- Witness for C6 at the spec's own example: price 3 violates
`minPrice = 5`, price 13 violates `maxPrice = 12`. -/
theorem validatePrice_spec_witness :
    validatePrice ipaPint 3 false =
      { valid := false, message := some (.belowMin 3 5) } ∧
    validatePrice ipaPint 13 false =
      { valid := false, message := some (.aboveMax 13 12) } :=
  ⟨(validatePrice_spec ipaPint 3).2.2.1 (by norm_num [ipaPint]),
   (validatePrice_spec ipaPint 13).2.2.2 (by norm_num [ipaPint])
     (by norm_num [ipaPint])⟩

/-- C7: verifying a signature freshly generated over the same payload and
secret always succeeds (`verify(p, sign(p, s), s) = true`). -/
theorem hmac_sign_verify_roundtrip (payload secret : String) :
    verifyHmacSignature payload (generateHmacSignature payload secret)
      secret = .ok true := by
  simp [verifyHmacSignature, timingSafeEqual, bufferFrom]

/-- C3: contrary to the spec, a provided signature shorter than the
64-character digest makes `verifyHmacSignature` THROW
(`crypto.timingSafeEqual` raises `RangeError` on buffers of different
lengths), rather than return false. -/
theorem verifyHmacSignature_length_mismatch_throws :
    verifyHmacSignature "payload" "abc" "secret" =
      .error "Input buffers must have the same byte length" := by
  have hlen : (bufferFrom (generateHmacSignature "payload" "secret")).length
      = 64 := by decide
  unfold verifyHmacSignature timingSafeEqual
  rw [if_neg]
  rw [hlen]
  decide

/-- C10: creating a catalog item whose request carries `taxRate: 0` stores
the default `0.0825` instead — the `body.taxRate || 0.0825` truthiness
check treats 0 as absent, so a zero tax rate cannot be set at creation. -/
theorem createItem_taxRate_truthiness (st : ServerState)
    (body : CreateItemRequest) (newId : String) (now : Nat)
    (hname : ¬body.name = "") (hcat : ¬body.category = "")
    (hp : ¬body.price = none) (hmin : ¬body.minPrice = none)
    (hmax : ¬body.maxPrice = none) :
    ∃ item : CatalogItem,
      catalogGet (createItemHandler st body newId now).state.catalog newId
        = some item ∧
      item.taxRate = jsOr body.taxRate (33/400) ∧
      (body.taxRate = some 0 → item.taxRate = 33/400) ∧
      ¬item.taxRate = 0 := by
  unfold createItemHandler
  rw [if_neg (by tauto)]
  refine ⟨_, catalogGet_catalogSet_self st.catalog newId _, rfl, ?_, ?_⟩
  · intro h
    simp [jsOr, h]
  · exact jsOr_ne_zero body.taxRate (33/400) (by norm_num)

/-- A concrete well-formed create-item request with `taxRate: 0`. -/
def zeroTaxBody : CreateItemRequest :=
  { name := "Craft Beer", category := "Beer", price := some 9,
    minPrice := some 7, maxPrice := some 15, taxRate := some 0 }

/-- Witness for C10: the `taxRate: 0` request above stores `0.0825`. -/
theorem createItem_taxRate_truthiness_witness :
    ∃ item : CatalogItem,
      catalogGet (createItemHandler
          { catalog := [], orders := [], promotions := [], menuVersion := 1 }
          zeroTaxBody "new-item" 5).state.catalog "new-item" = some item ∧
      item.taxRate = jsOr zeroTaxBody.taxRate (33/400) ∧
      (zeroTaxBody.taxRate = some 0 → item.taxRate = 33/400) ∧
      ¬item.taxRate = 0 :=
  createItem_taxRate_truthiness
    { catalog := [], orders := [], promotions := [], menuVersion := 1 }
    zeroTaxBody "new-item" 5 (by decide) (by decide) (by decide) (by decide)
    (by decide)

/-! ### Order total computation: loop lemmas and claims C1/C2 -/

/-- The per-line record `calculateOrderTotals` builds for a line whose item
is present (the `none` arm is dead code under the presence hypotheses). -/
def lineOf (cat : Catalog) (l : ReqLine) : OrderItem :=
  match catalogGet cat l.itemId with
  | some ci =>
    { itemId := l.itemId, name := ci.name, price := ci.price,
      quantity := l.qty, subtotal := ci.price * l.qty }
  | none =>
    { itemId := l.itemId, name := "", price := 0, quantity := l.qty,
      subtotal := 0 }

theorem rawSubtotalSum_cons (l : ReqLine) (ls : List ReqLine) (cat : Catalog)
    (ci : CatalogItem) (hci : catalogGet cat l.itemId = some ci) :
    rawSubtotalSum (l :: ls) cat = ci.price * l.qty + rawSubtotalSum ls cat := by
  simp [rawSubtotalSum, hci]

theorem rawTaxSum_cons (l : ReqLine) (ls : List ReqLine) (cat : Catalog)
    (ci : CatalogItem) (hci : catalogGet cat l.itemId = some ci) :
    rawTaxSum (l :: ls) cat =
      ci.price * l.qty * ci.taxRate + rawTaxSum ls cat := by
  simp [rawTaxSum, hci]

theorem lineOf_eq (cat : Catalog) (l : ReqLine) (ci : CatalogItem)
    (hci : catalogGet cat l.itemId = some ci) :
    lineOf cat l =
      { itemId := l.itemId, name := ci.name, price := ci.price,
        quantity := l.qty, subtotal := ci.price * l.qty } := by
  simp [lineOf, hci]

theorem totalsLoop_ok (cat : Catalog) :
    ∀ (items : List ReqLine) (sub tax : ℚ) (acc : List OrderItem),
      (∀ l ∈ items, (catalogGet cat l.itemId).isSome = true) →
      totalsLoop cat items sub tax acc =
        .ok (acc ++ items.map (lineOf cat),
             sub + rawSubtotalSum items cat,
             tax + rawTaxSum items cat) := by
  intro items
  induction items with
  | nil =>
    intro sub tax acc _
    simp [totalsLoop, rawSubtotalSum, rawTaxSum]
  | cons l ls ih =>
    intro sub tax acc hpres
    obtain ⟨ci, hci⟩ :=
      Option.isSome_iff_exists.mp (hpres l (List.mem_cons_self l ls))
    have hrest : ∀ l' ∈ ls, (catalogGet cat l'.itemId).isSome = true :=
      fun l' hl' => hpres l' (List.mem_cons_of_mem l hl')
    simp only [totalsLoop, hci]
    rw [ih _ _ _ hrest, rawSubtotalSum_cons l ls cat ci hci,
        rawTaxSum_cons l ls cat ci hci, List.map_cons, lineOf_eq cat l ci hci]
    simp [add_assoc]

/-- C1: for a non-empty request whose lines all reference catalog items,
`calculateOrderTotals` returns subtotal = `round2(Σ price*qty)`,
tax = `round2(Σ price*qty*taxRate)`, and total = the rounding of the
UNROUNDED subtotal plus the UNROUNDED tax — each aggregate rounded
independently from the raw sums. -/
theorem calculateOrderTotals_spec (items : List ReqLine) (catalog : Catalog)
    (_hne : ¬items = [])
    (hpresent : ∀ l ∈ items, (catalogGet catalog l.itemId).isSome = true) :
    calculateOrderTotals items catalog =
      .ok { items := items.map (lineOf catalog)
            subtotal := round2 (rawSubtotalSum items catalog)
            tax := round2 (rawTaxSum items catalog)
            total := round2 (rawSubtotalSum items catalog +
              rawTaxSum items catalog) } := by
  unfold calculateOrderTotals
  rw [totalsLoop_ok catalog items 0 0 [] hpresent]
  simp [Except.map]

/-- The seeded `House Margarita` (src/utils.ts lines 196-207). -/
def margarita : CatalogItem :=
  { id := "item-marg", name := "House Margarita", category := "Cocktails",
    price := 12, minPrice := 9, maxPrice := 18, taxRate := 33/400,
    isActive := true, createdAt := 0, updatedAt := 0 }

/-- The spec's own example order: 2 IPA pints and 1 margarita. -/
def demoCatalog : Catalog := [("ipa", ipaPint), ("marg", margarita)]

/-- Request lines of the spec's example order. -/
def demoLines : List ReqLine :=
  [{ itemId := "ipa", qty := 2 }, { itemId := "marg", qty := 1 }]

/-- Witness for C1 at the spec's example: subtotal 26.00, tax
2.145 → 2.15, total 28.145 → 28.15. -/
theorem calculateOrderTotals_spec_witness :
    calculateOrderTotals demoLines demoCatalog =
      .ok { items := demoLines.map (lineOf demoCatalog)
            subtotal := round2 (rawSubtotalSum demoLines demoCatalog)
            tax := round2 (rawTaxSum demoLines demoCatalog)
            total := round2 (rawSubtotalSum demoLines demoCatalog +
              rawTaxSum demoLines demoCatalog) } ∧
    round2 (rawSubtotalSum demoLines demoCatalog) = 26 ∧
    round2 (rawTaxSum demoLines demoCatalog) = 43/20 ∧
    round2 (rawSubtotalSum demoLines demoCatalog +
      rawTaxSum demoLines demoCatalog) = 563/20 := by
  have hipa : catalogGet demoCatalog "ipa" = some ipaPint := rfl
  have hmarg : catalogGet demoCatalog "marg" = some margarita := rfl
  refine ⟨calculateOrderTotals_spec demoLines demoCatalog (by decide)
    (by decide), ?_, ?_, ?_⟩ <;>
    norm_num [rawSubtotalSum, rawTaxSum, demoLines, hipa, hmarg, ipaPint,
      margarita, round2, jsRound]

/-- Every line record the loop emits carries the RAW `price * qty` as its
subtotal (no per-line rounding), given that the accumulator already does. -/
theorem totalsLoop_subtotal_inv (cat : Catalog) :
    ∀ (items : List ReqLine) (sub tax : ℚ) (acc out : List OrderItem)
      (s tx : ℚ),
      totalsLoop cat items sub tax acc = .ok (out, s, tx) →
      (∀ li ∈ acc, li.subtotal = li.price * li.quantity) →
      ∀ li ∈ out, li.subtotal = li.price * li.quantity := by
  intro items
  induction items with
  | nil =>
    intro sub tax acc out s tx h hacc
    simp only [totalsLoop, Except.ok.injEq, Prod.mk.injEq] at h
    obtain ⟨h1, _, _⟩ := h
    subst h1
    exact hacc
  | cons l ls ih =>
    intro sub tax acc out s tx h hacc
    simp only [totalsLoop] at h
    cases hci : catalogGet cat l.itemId with
    | none =>
      simp only [hci] at h
      exact Except.noConfusion h
    | some ci =>
      simp only [hci] at h
      refine ih _ _ _ _ _ _ h ?_
      intro li hli
      rcases List.mem_append.mp hli with hmem | hmem
      · exact hacc li hmem
      · simp only [List.mem_singleton] at hmem
        subst hmem
        rfl

/-- C2 amended: the per-line `subtotal` stored on the order (and forwarded
to broadcasts/webhooks) is the raw `price * qty`, NOT rounded to 2
decimals; it coincides with its rounding only when `price * qty` already
has at most 2 decimals. -/
theorem calculateOrderTotals_line_subtotals_raw (items : List ReqLine)
    (catalog : Catalog) (t : OrderTotals)
    (h : calculateOrderTotals items catalog = .ok t) :
    ∀ li ∈ t.items, li.subtotal = li.price * li.quantity := by
  unfold calculateOrderTotals at h
  cases hl : totalsLoop catalog items 0 0 [] with
  | error e =>
    rw [hl] at h
    simp [Except.map] at h
  | ok r =>
    obtain ⟨out, s, tx⟩ := r
    rw [hl] at h
    simp only [Except.map, Except.ok.injEq] at h
    subst h
    intro li hli
    exact totalsLoop_subtotal_inv catalog items 0 0 [] out s tx hl
      (by simp) li hli

/-- A catalog item whose price has more than 2 decimals ($0.105); nothing
in item creation or price update prevents such a price. -/
def oddItem : CatalogItem :=
  { id := "odd", name := "Odd Ale", category := "Beer", price := 21/200,
    minPrice := 0, maxPrice := 1, taxRate := 33/400, isActive := true,
    createdAt := 0, updatedAt := 0 }

/-- C2 counterexample: with unit price $0.105 and qty 1 the stored line
subtotal is 0.105, which is NOT equal to its 2-decimal rounding 0.11 —
so per-line subtotals are not rounded, contrary to the claim.  (The
aggregate fields ARE rounded: subtotal 0.11, tax 0.01, total 0.11.) -/
theorem line_subtotal_unrounded_counterexample :
    calculateOrderTotals [{ itemId := "odd", qty := 1 }] [("odd", oddItem)] =
      .ok { items := [{ itemId := "odd", name := "Odd Ale", price := 21/200,
                        quantity := 1, subtotal := 21/200 }],
            subtotal := 11/100, tax := 1/100, total := 11/100 } ∧
    ¬(21/200 : ℚ) = round2 (21/200) := by
  have hcalc : calculateOrderTotals [{ itemId := "odd", qty := 1 }]
      [("odd", oddItem)] =
      .ok { items := [{ itemId := "odd", name := "Odd Ale", price := 21/200,
                        quantity := 1, subtotal := 21/200 * 1 }],
            subtotal := round2 (0 + 21/200 * 1),
            tax := round2 (0 + 21/200 * 1 * (33/400)),
            total := round2 (0 + 21/200 * 1 + (0 + 21/200 * 1 * (33/400))) } :=
    rfl
  constructor
  · rw [hcalc]
    norm_num [Except.ok.injEq, OrderTotals.mk.injEq, OrderItem.mk.injEq,
      round2, jsRound]
  · norm_num [round2, jsRound]

/-- Witness for the amended C2 at the same concrete order: the stored line
subtotal equals the raw price times quantity. -/
theorem line_subtotals_raw_witness :
    ({ itemId := "odd", name := "Odd Ale", price := 21/200, quantity := 1,
       subtotal := 21/200 * 1 } : OrderItem).subtotal =
      ({ itemId := "odd", name := "Odd Ale", price := 21/200, quantity := 1,
         subtotal := 21/200 * 1 } : OrderItem).price *
      ({ itemId := "odd", name := "Odd Ale", price := 21/200, quantity := 1,
         subtotal := 21/200 * 1 } : OrderItem).quantity :=
  calculateOrderTotals_line_subtotals_raw [{ itemId := "odd", qty := 1 }]
    [("odd", oddItem)] _ rfl _ (by simp [oddItem])

/-! ### Webhook retry schedule: claim C4 -/

/-- The doubling backoff schedule: `n` waits starting at `d` ms. -/
def geomDelays (d : Nat) : Nat → List Nat
  | 0 => []
  | n + 1 => d :: geomDelays (d * 2) n

/-- One failing attempt with retries left: sleep `d`, double the delay,
recurse with the next attempt index. -/
theorem webhookLoop_step (outcomes : Nat → AttemptOutcome)
    (mR rc d fuel : Nat) (hfailrc : ¬outcomes rc = .ok) (hlt : rc < mR) :
    webhookLoop outcomes mR rc d (fuel + 1) =
      { attempts := (webhookLoop outcomes mR (rc + 1) (d * 2) fuel).attempts + 1,
        delays := d :: (webhookLoop outcomes mR (rc + 1) (d * 2) fuel).delays,
        result := (webhookLoop outcomes mR (rc + 1) (d * 2) fuel).result } := by
  cases ho : outcomes rc with
  | ok => exact absurd ho hfailrc
  | httpFail => simp [webhookLoop, ho, hlt]
  | transportErr => simp [webhookLoop, ho, hlt]

/-- A failing attempt with the budget exhausted: the promise rejects. -/
theorem webhookLoop_stop (outcomes : Nat → AttemptOutcome)
    (mR rc d fuel : Nat) (hfailrc : ¬outcomes rc = .ok) (hge : ¬rc < mR) :
    webhookLoop outcomes mR rc d (fuel + 1) =
      { attempts := 1, delays := [], result := .error () } := by
  cases ho : outcomes rc with
  | ok => exact absurd ho hfailrc
  | httpFail => simp [webhookLoop, ho, hge]
  | transportErr => simp [webhookLoop, ho, hge]

theorem webhookLoop_all_fail (outcomes : Nat → AttemptOutcome) (mR : Nat)
    (hfail : ∀ n, ¬outcomes n = .ok) :
    ∀ (fuel rc d : Nat), rc + fuel = mR →
      webhookLoop outcomes mR rc d (fuel + 1) =
        { attempts := fuel + 1, delays := geomDelays d fuel,
          result := .error () } := by
  intro fuel
  induction fuel with
  | zero =>
    intro rc d hrc
    rw [webhookLoop_stop outcomes mR rc d 0 (hfail rc) (by omega)]
    simp [geomDelays]
  | succ f ih =>
    intro rc d hrc
    rw [webhookLoop_step outcomes mR rc d (f + 1) (hfail rc) (by omega),
        ih (rc + 1) (d * 2) (by omega)]
    simp [geomDelays]

theorem webhookLoop_first_success (outcomes : Nat → AttemptOutcome) (mR : Nat) :
    ∀ (k fuel rc d : Nat), rc + fuel = mR → rc + k ≤ mR →
      outcomes (rc + k) = .ok → (∀ m, m < k → ¬outcomes (rc + m) = .ok) →
      webhookLoop outcomes mR rc d (fuel + 1) =
        { attempts := k + 1, delays := geomDelays d k, result := .ok () } := by
  intro k
  induction k with
  | zero =>
    intro fuel rc d _ _ hok _
    simp only [Nat.add_zero] at hok
    simp [webhookLoop, hok, geomDelays]
  | succ k ih =>
    intro fuel rc d hrc hk hok hbefore
    have hne : ¬outcomes rc = .ok := by
      have := hbefore 0 (Nat.succ_pos k)
      simpa using this
    have hlt : rc < mR := by omega
    obtain ⟨f, rfl⟩ : ∃ f, fuel = f + 1 := ⟨fuel - 1, by omega⟩
    have hrec := ih f (rc + 1) (d * 2) (by omega) (by omega)
      (by rw [show rc + 1 + k = rc + (k + 1) by omega]; exact hok)
      (fun m hm => by
        rw [show rc + 1 + m = rc + (m + 1) by omega]
        exact hbefore (m + 1) (by omega))
    rw [webhookLoop_step outcomes mR rc d (f + 1) hne hlt, hrec]
    simp [geomDelays]

/-- C4: with the default retry budget (`maxRetries = 3`), an endpoint that
always fails sees exactly 4 attempts with waits of 1000ms, 2000ms and
4000ms between consecutive attempts, after which the run terminates with a
rejected promise; the order-creation handler's response and state are
computed independently of the delivery outcomes (the rejection is absorbed
by `.catch`, never reaching the HTTP caller); and on the first 2xx
response (attempt `k`) the run returns at once with `k + 1` total
attempts. -/
theorem sendWebhook_retry_policy (outcomes : Nat → AttemptOutcome) :
    ((∀ n, ¬outcomes n = .ok) →
      sendWebhook outcomes 3 =
        { attempts := 4, delays := [1000, 2000, 4000],
          result := .error () }) ∧
    (∀ (st : ServerState) (items : List ReqLine) (newId : String) (now : Nat),
      (createOrderWithWebhook st items newId now true outcomes).1 =
        createOrderHandler st items newId now true) ∧
    (∀ k, k ≤ 3 → outcomes k = .ok → (∀ m, m < k → ¬outcomes m = .ok) →
      sendWebhook outcomes 3 =
        { attempts := k + 1, delays := geomDelays 1000 k,
          result := .ok () }) := by
  refine ⟨?_, fun _ _ _ _ => rfl, ?_⟩
  · intro hfail
    have h := webhookLoop_all_fail outcomes 3 hfail 3 0 1000 (by omega)
    simpa [sendWebhook, geomDelays] using h
  · intro k hk hok hbefore
    have h := webhookLoop_first_success outcomes 3 k 3 0 1000 (by omega)
      (by omega) (by simpa using hok) (fun m hm => by simpa using hbefore m hm)
    simpa [sendWebhook] using h

/-- Witness for C4: an endpoint failing every attempt yields the 4-attempt
1s/2s/4s trace; an endpoint succeeding on the second attempt stops after
2 attempts and a single 1000ms wait. -/
theorem sendWebhook_retry_policy_witness :
    sendWebhook (fun _ => .httpFail) 3 =
      { attempts := 4, delays := [1000, 2000, 4000], result := .error () } ∧
    sendWebhook (fun n => if n = 1 then .ok else .transportErr) 3 =
      { attempts := 2, delays := [1000], result := .ok () } :=
  ⟨(sendWebhook_retry_policy (fun _ => .httpFail)).1 (fun n => by decide),
   (sendWebhook_retry_policy (fun n => if n = 1 then .ok else .transportErr)
      ).2.2 1 (by decide) (by decide)
      (fun m hm => by
        have : m = 0 := by omega
        subst this
        decide)⟩

/-! ### Missing-item abort: claim C5 -/

/-- When some requested line references an absent item, the loop throws
`Item <id> not found` for the first such line and yields no partial
result. -/
theorem totalsLoop_error_of_missing (cat : Catalog) :
    ∀ (items : List ReqLine) (sub tax : ℚ) (acc : List OrderItem),
      (∃ l ∈ items, catalogGet cat l.itemId = none) →
      ∃ m, (∃ l ∈ items, l.itemId = m ∧ catalogGet cat m = none) ∧
        totalsLoop cat items sub tax acc =
          .error ("Item " ++ m ++ " not found") := by
  intro items
  induction items with
  | nil =>
    intro sub tax acc hmiss
    obtain ⟨l, hl, _⟩ := hmiss
    exact absurd hl (List.not_mem_nil l)
  | cons l ls ih =>
    intro sub tax acc hmiss
    cases hci : catalogGet cat l.itemId with
    | none =>
      refine ⟨l.itemId, ⟨l, List.mem_cons_self l ls, rfl, hci⟩, ?_⟩
      simp only [totalsLoop, hci]
    | some ci =>
      have hmiss' : ∃ l' ∈ ls, catalogGet cat l'.itemId = none := by
        obtain ⟨l', hl', hnone⟩ := hmiss
        rcases List.mem_cons.mp hl' with rfl | hmem
        · rw [hci] at hnone
          exact Option.noConfusion hnone
        · exact ⟨l', hmem, hnone⟩
      obtain ⟨m, ⟨l', hl', hid, hnone⟩, hloop⟩ :=
        ih (sub + ci.price * l.qty) (tax + ci.price * l.qty * ci.taxRate)
          (acc ++ [{ itemId := l.itemId, name := ci.name, price := ci.price,
                     quantity := l.qty, subtotal := ci.price * l.qty }]) hmiss'
      refine ⟨m, ⟨l', List.mem_cons_of_mem l hl', hid, hnone⟩, ?_⟩
      simp only [totalsLoop, hci]
      exact hloop

/-- C5: a request naming an item id absent from the catalog makes
`calculateOrderTotals` fail with `Item <id> not found` for a missing id of
the request (yielding no partial totals), and `POST /orders` answers 400
with that message while leaving the whole server state unchanged,
broadcasting nothing and sending no webhook. -/
theorem createOrder_missing_item_aborts (st : ServerState)
    (items : List ReqLine) (newId : String) (now : Nat) (cfg : Bool)
    (hmiss : ∃ l ∈ items, catalogGet st.catalog l.itemId = none) :
    ∃ m, (∃ l ∈ items, l.itemId = m ∧ catalogGet st.catalog m = none) ∧
      calculateOrderTotals items st.catalog =
        .error ("Item " ++ m ++ " not found") ∧
      createOrderHandler st items newId now cfg =
        { status := 400, state := st, events := [],
          error := some ("Item " ++ m ++ " not found"), webhook := none } := by
  obtain ⟨m, hm, hloop⟩ :=
    totalsLoop_error_of_missing st.catalog items 0 0 [] hmiss
  have hcalc : calculateOrderTotals items st.catalog =
      .error ("Item " ++ m ++ " not found") := by
    unfold calculateOrderTotals
    rw [hloop]
    rfl
  refine ⟨m, hm, hcalc, ?_⟩
  have hne : items.isEmpty = false := by
    obtain ⟨l, hl, _⟩ := hm
    cases items with
    | nil => exact absurd hl (List.not_mem_nil l)
    | cons a as => rfl
  unfold createOrderHandler
  rw [hne]
  simp only [Bool.false_eq_true, if_false, hcalc]

/-- A request line naming an id that is not in the demo catalog. -/
def ghostLines : List ReqLine := [{ itemId := "ghost", qty := 1 }]

/-- A concrete server state holding the demo catalog. -/
def demoState : ServerState :=
  { catalog := demoCatalog, orders := [], promotions := [], menuVersion := 1 }

/-- Witness for C5: ordering the unknown id `ghost` against the demo
catalog aborts with `Item ghost not found` and mutates nothing. -/
theorem createOrder_missing_item_aborts_witness :
    calculateOrderTotals ghostLines demoState.catalog =
      .error ("Item " ++ "ghost" ++ " not found") ∧
    createOrderHandler demoState ghostLines "oid" 5 true =
      { status := 400, state := demoState, events := [],
        error := some ("Item " ++ "ghost" ++ " not found"),
        webhook := none } := by
  obtain ⟨m, ⟨l, hl, hid, _⟩, hcalc, hhandler⟩ :=
    createOrder_missing_item_aborts demoState ghostLines "oid" 5 true
      ⟨{ itemId := "ghost", qty := 1 }, by decide, rfl⟩
  have hm : m = "ghost" := by
    simp only [ghostLines, List.mem_singleton] at hl
    subst hl
    exact hid.symm
  subst hm
  exact ⟨hcalc, hhandler⟩

/-! ### menuVersion monotonicity (C8) and the price-update frame (C9) -/

/-- C8: every core operation — create/update/delete catalog item, price
update, menu publish, promotion creation, order creation — leaves
`menuVersion` unchanged or increments it by exactly one; no operation ever
lowers it, so across any run the counter is non-decreasing and takes each
value at most once. -/
theorem menuVersion_monotone (st : ServerState) (op : Op) :
    (applyOp st op).state.menuVersion = st.menuVersion ∨
    (applyOp st op).state.menuVersion = st.menuVersion + 1 := by
  cases op with
  | createItem body newId now =>
    simp only [applyOp, createItemHandler]
    split
    · exact Or.inl rfl
    · exact Or.inr rfl
  | updateItem id body now =>
    simp only [applyOp, updateItemHandler]
    rcases hc : catalogGet st.catalog id with _ | item <;> simp [hc]
  | deleteItem id now =>
    simp only [applyOp, deleteItemHandler]
    rcases hc : catalogGet st.catalog id with _ | item <;> simp [hc]
  | priceUpdate itemId body now =>
    simp only [applyOp, priceUpdateHandler]
    rcases hb : body.price with _ | p
    · simp [hb]
    · rcases hc : catalogGet st.catalog itemId with _ | item
      · simp [hb, hc]
      · simp only [hb, hc]
        by_cases hv : (validatePrice item p
            (body.overrideGuardrails.getD false)).valid = true
        · rw [if_pos hv]
          by_cases hpub : body.publish.getD false = true
          · rw [if_pos hpub]
            exact Or.inr rfl
          · rw [if_neg hpub]
            exact Or.inl rfl
        · rw [if_neg hv]
          exact Or.inl rfl
  | createPromotion body newId now =>
    simp only [applyOp, createPromotionHandler]
    split
    · exact Or.inl rfl
    · rcases hc : catalogGet st.catalog body.itemId with _ | item <;>
        simp [hc]
  | publishMenu now =>
    exact Or.inr rfl
  | createOrder items newId now cfg =>
    simp only [applyOp, createOrderHandler]
    split
    · exact Or.inl rfl
    · rcases hc : calculateOrderTotals items st.catalog with e | calcRes <;>
        simp [hc]

/-- C9: a successful price update (item found, guardrails pass) with the
publish flag falsy changes only the target item's `price` and `updatedAt`
— other items, orders, promotions and `menuVersion` are untouched; with
publish true the same holds except `menuVersion` is incremented by exactly
one. -/
theorem priceUpdate_frame (st : ServerState) (itemId : String)
    (body : PriceUpdateRequest) (now : Nat) (p : ℚ) (item : CatalogItem)
    (hp : body.price = some p)
    (hitem : catalogGet st.catalog itemId = some item)
    (hvalid : (validatePrice item p
      (body.overrideGuardrails.getD false)).valid = true) :
    (priceUpdateHandler st itemId body now).status = 200 ∧
    catalogGet (priceUpdateHandler st itemId body now).state.catalog itemId =
      some { item with price := p, updatedAt := now } ∧
    (∀ k, ¬k = itemId →
      catalogGet (priceUpdateHandler st itemId body now).state.catalog k =
        catalogGet st.catalog k) ∧
    (priceUpdateHandler st itemId body now).state.orders = st.orders ∧
    (priceUpdateHandler st itemId body now).state.promotions =
      st.promotions ∧
    (priceUpdateHandler st itemId body now).state.menuVersion =
      (if body.publish.getD false then st.menuVersion + 1
       else st.menuVersion) := by
  unfold priceUpdateHandler
  simp only [hp, hitem]
  rw [if_pos hvalid]
  refine ⟨rfl, ?_, ?_, rfl, rfl, rfl⟩
  · exact catalogGet_catalogSet_self st.catalog itemId _
  · intro k hk
    exact catalogGet_catalogSet_other st.catalog itemId k _ hk

/-- A concrete guardrail-respecting price update request with publish. -/
def priceBodyW : PriceUpdateRequest :=
  { price := some 8, publish := some true, overrideGuardrails := none }

/-- Witness for C9: raising the IPA pint to $8 with publish leaves the
margarita, orders and promotions untouched and bumps `menuVersion` from 1
to 2. -/
theorem priceUpdate_frame_witness :
    (priceUpdateHandler demoState "ipa" priceBodyW 7).status = 200 ∧
    catalogGet (priceUpdateHandler demoState "ipa" priceBodyW 7).state.catalog
      "ipa" = some { ipaPint with price := 8, updatedAt := 7 } ∧
    catalogGet (priceUpdateHandler demoState "ipa" priceBodyW 7).state.catalog
      "marg" = catalogGet demoState.catalog "marg" ∧
    (priceUpdateHandler demoState "ipa" priceBodyW 7).state.orders =
      demoState.orders ∧
    (priceUpdateHandler demoState "ipa" priceBodyW 7).state.promotions =
      demoState.promotions ∧
    (priceUpdateHandler demoState "ipa" priceBodyW 7).state.menuVersion =
      demoState.menuVersion + 1 := by
  have h := priceUpdate_frame demoState "ipa" priceBodyW 7 8 ipaPint rfl rfl
    (by norm_num [validatePrice, ipaPint, priceBodyW])
  refine ⟨h.1, h.2.1, h.2.2.1 "marg" (by decide), h.2.2.2.1,
    h.2.2.2.2.1, ?_⟩
  rw [h.2.2.2.2.2]
  rfl

end POS
